import Mathlib

/-!
Shallow embedding of the three synchronization managers of
`src/projects/project_1/core` (mutex_sync.py, semaphore_sync.py,
condition_sync.py).

Entity identifiers are modelled as `String`; monetary balances as `ℚ`
(Python floats, exact rational model); semaphore counters as `Nat`
(number of currently available units).  Each Python method becomes a
Lean function returning a `PyResult`: either a normal return value
together with the final state, or a raised Python exception together
with the state at the moment the exception propagates out of the method.

Lock acquisition with a timeout (`lock.acquire(timeout=2)`) is modelled
by an explicit `lockOk : Bool` argument giving the outcome of the
acquisition attempt; semaphore acquisition with a timeout is modelled by
the counter value: in a single-threaded execution of one call no other
thread can release during the wait, so acquisition succeeds exactly when
at least one unit is currently available.
-/

/-- Python exceptions that the embedded methods can raise. -/
inductive PyError where
  | nameError (n : String)
  | attributeError (n : String)
  | keyError
deriving Repr, DecidableEq

/-- Outcome of calling a Python method: a normal return value with the
final state, or an exception escaping the method with the state at the
moment it propagates. -/
inductive PyResult (σ : Type) (α : Type) where
  | ok (s : σ) (v : α)
  | exn (s : σ) (e : PyError)
deriving Repr, DecidableEq

/-- The state in which a call left the manager, whether it returned or
raised. -/
def PyResult.state {σ α : Type} : PyResult σ α → σ
  | .ok s _ => s
  | .exn s _ => s

/-- Association-list lookup, modelling Python dict subscript or `.get`. -/
def lookupKV {α β : Type} [DecidableEq α] (k : α) : List (α × β) → Option β
  | [] => none
  | (k1, v) :: rest => if k1 = k then some v else lookupKV k rest

/-- Update the value stored under an existing key, modelling Python dict
item assignment on a key already present. -/
def setEntry {α β : Type} [DecidableEq α] (k : α) (v : β) : List (α × β) → List (α × β)
  | [] => []
  | (k1, v1) :: rest => if k1 = k then (k1, v) :: rest else (k1, v1) :: setEntry k v rest

/-- The externally supplied `STSSeed` data the managers consume: stop
identifier to dock capacity, bus identifier to seat capacity, passenger
identifier to initial balance. -/
structure Seed where
  stops : List (String × Nat)
  buses : List (String × Nat)
  passengers : List (String × ℚ)
deriving Repr, DecidableEq

/-! ## MutexSyncManager (mutex_sync.py) -/

/-- State of `MutexSyncManager`: `card_locks` holds the passenger ids
for which a card mutex exists, `card_balances` the per-passenger
balances, `stop_locks` the stop ids for which a stop mutex exists. -/
structure MutexState where
  card_locks : List String
  card_balances : List (String × ℚ)
  stop_locks : List String
deriving Repr, DecidableEq

/-- mutex_sync.py lines 26-46: for every passenger of the seed a lock is
created and the balance is set to `random.uniform(10, 100)` — modelled
by the oracle `rand`; for every stop a stop lock is created.  The
supplied initial balances of `seed.passengers` are not consulted. -/
def mutexInit (seed : Seed) (rand : String → ℚ) : MutexState :=
  { card_locks := seed.passengers.map Prod.fst
  , card_balances := seed.passengers.map (fun pb => (pb.1, rand pb.1))
  , stop_locks := seed.stops.map Prod.fst }

/-- mutex_sync.py lines 53-78: unknown passenger or missing lock returns
False; failed acquisition returns False; with the lock held, a balance
below `amount` returns False with no mutation, otherwise the balance is
debited and True is returned. -/
def pay_fare (s : MutexState) (p : String) (amount : ℚ) (lockOk : Bool) :
    PyResult MutexState Bool :=
  match lookupKV p s.card_balances with
  | none => .ok s false
  | some bal =>
    if p ∈ s.card_locks then
      if lockOk then
        if bal < amount then .ok s false
        else .ok { s with card_balances := setEntry p (bal - amount) s.card_balances } true
      else .ok s false
    else .ok s false

/-- mutex_sync.py lines 81-98: unknown passenger returns False; the lock
fetched with `.get` is used without a None check, so a missing lock
raises AttributeError on `None.acquire`; otherwise the balance is
credited under the lock. -/
def recharge_card (s : MutexState) (p : String) (amount : ℚ) (lockOk : Bool) :
    PyResult MutexState Bool :=
  match lookupKV p s.card_balances with
  | none => .ok s false
  | some bal =>
    if p ∈ s.card_locks then
      if lockOk then
        .ok { s with card_balances := setEntry p (bal + amount) s.card_balances } true
      else .ok s false
    else .exn s (.attributeError "acquire")

/-- mutex_sync.py lines 101-117: unknown passenger or missing lock
returns False; otherwise line 112 evaluates `lock.aquire` — a misspelt
attribute that no Lock object has — so the call raises AttributeError
before touching the balance. -/
def refund (s : MutexState) (p : String) (amount : ℚ) :
    PyResult MutexState Bool :=
  match lookupKV p s.card_balances with
  | none => .ok s false
  | some _ =>
    if p ∈ s.card_locks then .exn s (.attributeError "aquire")
    else .ok s false

/-- mutex_sync.py lines 120-145: same shape as `pay_fare` with the fixed
cost `PASS_COST = 45.0`. -/
def buy_monthly_pass (s : MutexState) (p : String) (lockOk : Bool) :
    PyResult MutexState Bool :=
  match lookupKV p s.card_balances with
  | none => .ok s false
  | some bal =>
    if p ∈ s.card_locks then
      if lockOk then
        if bal < 45 then .ok s false
        else .ok { s with card_balances := setEntry p (bal - 45) s.card_balances } true
      else .ok s false
    else .ok s false

/-- mutex_sync.py lines 149-167: unknown stop returns False; failed lock
acquisition returns False; with the lock held, line 159 interpolates the
name `bus`, but the parameter is spelt `buss` and no binding `bus` is in
scope, so a NameError is raised (the finally block releases the lock and
the exception propagates). -/
def mutex_board_passenger (s : MutexState) (stop : String) (lockOk : Bool) :
    PyResult MutexState Bool :=
  if stop ∈ s.stop_locks then
    if lockOk then .exn s (.nameError "bus")
    else .ok s false
  else .ok s false

/-- mutex_sync.py lines 169-187: unknown stop returns False; otherwise
the outcome is that of the lock acquisition (the body only sleeps and
logs). -/
def mutex_alight_passengers (s : MutexState) (stop : String) (lockOk : Bool) :
    PyResult MutexState Bool :=
  if stop ∈ s.stop_locks then .ok s lockOk
  else .ok s false

/-- Method names bound in the class body of `MutexSyncManager`.  The
`cleanup` def at mutex_sync.py line 234 starts at column 0, outside the
class body, so it is a module-level function and not a method. -/
def mutexClassMethodNames : List String :=
  ["__init__", "initialize", "pay_fare", "recharge_card", "refund",
   "buy_monthly_pass", "board_passenger", "alight_passengers", "run_scenarios"]

/-- Attribute lookup and call of `cleanup` on a `MutexSyncManager`
instance: since `cleanup` is not among the class's methods, the call
raises AttributeError. -/
def callMutexCleanup (s : MutexState) : PyResult MutexState Bool :=
  if "cleanup" ∈ mutexClassMethodNames then
    .ok { card_locks := [], card_balances := [], stop_locks := [] } true
  else .exn s (.attributeError "cleanup")

/-! ## SemaphoreSyncManager (semaphore_sync.py) -/

/-- State of `SemaphoreSyncManager` as created by `__init__` (lines
8-31): the two semaphore maps store the number of currently available
units; `stop_queues` maps a stop to its bus queue; `queue_locks` holds
the stop ids owning a queue lock.  The attributes `passenger_in_bus`,
`bus_at_stop` and `stops_with_buses` used by the methods are never
created anywhere in the class, so reading them raises AttributeError. -/
structure SemState where
  bus_semaphores : List (String × Nat)
  stop_semaphores : List (String × Nat)
  stop_queues : List (String × List String)
  queue_locks : List String
deriving Repr, DecidableEq

/-- semaphore_sync.py lines 33-58: every bus gets a semaphore with its
seed capacity; every stop gets a semaphore of fixed capacity 2
regardless of the supplied dock capacity (line 50); `stop_queues` and
`queue_locks` are left empty — no entries are ever added to them. -/
def semInit (seed : Seed) : SemState :=
  { bus_semaphores := seed.buses
  , stop_semaphores := seed.stops.map (fun sc => (sc.1, 2))
  , stop_queues := []
  , queue_locks := [] }

/-- semaphore_sync.py lines 61-90: unknown bus returns False; a full bus
(no available unit, and in a single call no concurrent release can
occur) returns False after the timeout; once a unit is acquired, line 87
reads `self.passenger_in_bus`, an attribute never created, so the call
raises AttributeError with the semaphore unit already consumed. -/
def sem_board_passenger (s : SemState) (bus p : String) (timeout : ℚ) :
    PyResult SemState Bool :=
  match lookupKV bus s.bus_semaphores with
  | none => .ok s false
  | some 0 => .ok s false
  | some (n + 1) =>
      .exn { s with bus_semaphores := setEntry bus n s.bus_semaphores }
        (.attributeError "passenger_in_bus")

/-- semaphore_sync.py lines 93-128: unknown bus returns False; line 108
then reads `self.passenger_in_bus`, an attribute never created, so the
call raises AttributeError. -/
def sem_alight_passenger (s : SemState) (bus p : String) :
    PyResult SemState Bool :=
  match lookupKV bus s.bus_semaphores with
  | none => .ok s false
  | some _ => .exn s (.attributeError "passenger_in_bus")

/-- semaphore_sync.py lines 131-186: unknown stop returns False; line
148 subscripts `self.queue_locks[stop_id]`, and since no entry is ever
added to `queue_locks` this raises KeyError; were an entry present, line
149 would raise KeyError on `stop_queues`, and after enqueueing the bus
line 155 would raise NameError because the `time` module is not imported
in semaphore_sync.py. -/
def sem_bus_arrive_at_stop (s : SemState) (bus stop : String) (timeout : ℚ) :
    PyResult SemState Bool :=
  match lookupKV stop s.stop_semaphores with
  | none => .ok s false
  | some _ =>
    if stop ∈ s.queue_locks then
      match lookupKV stop s.stop_queues with
      | none => .exn s .keyError
      | some q =>
          .exn { s with stop_queues := setEntry stop (q ++ [bus]) s.stop_queues }
            (.nameError "time")
    else .exn s .keyError

/-- semaphore_sync.py lines 188-224: unknown stop returns False; line
203 then reads `self.bus_at_stop`, an attribute never created, so the
call raises AttributeError. -/
def sem_bus_depart_from_stop (s : SemState) (bus stop : String) :
    PyResult SemState Bool :=
  match lookupKV stop s.stop_semaphores with
  | none => .ok s false
  | some _ => .exn s (.attributeError "bus_at_stop")

/-- semaphore_sync.py lines 265-284: the try block clears the four dicts
created by `__init__`, then line 278 reads `self.bus_at_stop`, an
attribute never created; the AttributeError is caught by the except
block, which returns False. -/
def sem_cleanup (s : SemState) : PyResult SemState Bool :=
  .ok { bus_semaphores := [], stop_semaphores := []
      , stop_queues := [], queue_locks := [] } false

/-! ## ConditionSyncManager (condition_sync.py) -/

/-- State of `ConditionSyncManager`: the stop and bus ids owning a
condition variable, the per-stop list of buses currently present, the
per-bus phase flags, and the transfer records keyed by
(passenger, from bus, to bus). -/
structure CondState where
  stop_conditions : List String
  bus_conditions : List String
  bus_at_stop : List (String × List String)
  boarding_complete : List (String × Bool)
  alighting_complete : List (String × Bool)
  transfers_in_progress : List ((String × String × String) × Bool)
deriving Repr, DecidableEq

/-- condition_sync.py lines 55-90: a condition per stop and per bus,
phase flags reset to False, empty present-bus map and transfer map. -/
def condInit (seed : Seed) : CondState :=
  { stop_conditions := seed.stops.map Prod.fst
  , bus_conditions := seed.buses.map Prod.fst
  , bus_at_stop := []
  , boarding_complete := seed.buses.map (fun b => (b.1, false))
  , alighting_complete := seed.buses.map (fun b => (b.1, false))
  , transfers_in_progress := [] }

/-- condition_sync.py line 128: the sentinel value `-1` returned when
the wait deadline elapses (the docstring's TIMEOUT result).  Line 108
returns the same literal `-1` for an unknown stop. -/
def wfbTimeoutSentinel : Int := -1

/-- condition_sync.py lines 93-128: an unknown stop returns the sentinel
`-1`; with a known stop, the first statement under the condition lock is
`start_time = time.time()`, and the `time` module is not imported in
condition_sync.py, so the call raises NameError — the bus-returning and
timeout branches of the loop are unreachable. -/
def wait_for_bus (s : CondState) (p stop : String) (target : Option String)
    (timeout : ℚ) : PyResult CondState Int :=
  if stop ∈ s.stop_conditions then .exn s (.nameError "time")
  else .ok s (-1)

/-- condition_sync.py lines 155-176: unknown stop returns False; with a
known stop, the bus is removed from the stop's present list only when it
is there, all waiters are woken, and True is returned. -/
def notify_bus_departure (s : CondState) (bus stop : String) :
    PyResult CondState Bool :=
  if stop ∈ s.stop_conditions then
    match lookupKV stop s.bus_at_stop with
    | some l =>
        if bus ∈ l then
          .ok { s with bus_at_stop := setEntry stop (l.erase bus) s.bus_at_stop } true
        else .ok s true
    | none => .ok s true
  else .ok s false

/-- condition_sync.py lines 346-366: a triple with no transfer record
returns False; otherwise the record's completion flag is set to True and
all transfer waiters are woken. -/
def complete_transfer (s : CondState) (p fromBus toBus : String) :
    PyResult CondState Bool :=
  match lookupKV (p, fromBus, toBus) s.transfers_in_progress with
  | none => .ok s false
  | some _ =>
      .ok { s with transfers_in_progress :=
              setEntry (p, fromBus, toBus) true s.transfers_in_progress } true

/-- condition_sync.py lines 440-460: every attribute cleared exists, so
the try block completes and True is returned. -/
def cond_cleanup (s : CondState) : PyResult CondState Bool :=
  .ok { stop_conditions := [], bus_conditions := [], bus_at_stop := []
      , boarding_complete := [], alighting_complete := []
      , transfers_in_progress := [] } true

/-! ## Ledger operation sequences -/

/-- A call to one of the four card operations of `MutexSyncManager`,
with the outcome of the lock acquisition where the method attempts
one. -/
inductive LedgerOp where
  | pay (p : String) (amount : ℚ) (lockOk : Bool)
  | recharge (p : String) (amount : ℚ) (lockOk : Bool)
  | refund (p : String) (amount : ℚ)
  | monthlyPass (p : String) (lockOk : Bool)
deriving Repr, DecidableEq

/-- The amount moved by the operation is non-negative (the monthly pass
cost is the fixed 45). -/
def LedgerOp.amountNonneg : LedgerOp → Prop
  | .pay _ a _ => 0 ≤ a
  | .recharge _ a _ => 0 ≤ a
  | .refund _ a => 0 ≤ a
  | .monthlyPass _ _ => True

/-- State reached after one ledger call: the state the call returned or
raised with. -/
def stepLedger (s : MutexState) : LedgerOp → MutexState
  | .pay p a lk => (pay_fare s p a lk).state
  | .recharge p a lk => (recharge_card s p a lk).state
  | .refund p a => (refund s p a).state
  | .monthlyPass p lk => (buy_monthly_pass s p lk).state

/-- State reached after a sequence of ledger calls. -/
def runLedger (s : MutexState) (ops : List LedgerOp) : MutexState :=
  ops.foldl stepLedger s

/-- Every recorded balance is non-negative. -/
def balNonneg (s : MutexState) : Prop :=
  ∀ p b, lookupKV p s.card_balances = some b → 0 ≤ b

/-! ## Concrete example instances -/

/-- A concrete seed: one stop of dock capacity 5, one bus of seat
capacity 2, one passenger with supplied initial balance 70. -/
def seedEx : Seed :=
  { stops := [("S1", 5)], buses := [("B1", 2)], passengers := [("P1", 70)] }

/-- A concrete balance oracle standing for `random.uniform(10, 100)`. -/
def randEx : String → ℚ := fun _ => 50

/-- The mutex manager state right after its init on `seedEx`. -/
def mEx : MutexState := mutexInit seedEx randEx

/-- The semaphore manager state right after its init on `seedEx`. -/
def semEx : SemState := semInit seedEx

/-- The condition manager state right after its init on `seedEx`. -/
def condEx : CondState := condInit seedEx

/-! ## Helper lemmas about the association-list operations -/

theorem lookupKV_setEntry_self {α β : Type} [DecidableEq α] (k : α) (v : β)
    (l : List (α × β)) {b : β} (h : lookupKV k l = some b) :
    lookupKV k (setEntry k v l) = some v := by
  induction l with
  | nil => simp [lookupKV] at h
  | cons hd tl ih =>
    obtain ⟨k1, v1⟩ := hd
    by_cases hk : k1 = k
    · simp [lookupKV, setEntry, hk]
    · simp only [lookupKV, setEntry, if_neg hk] at h ⊢
      exact ih h

theorem lookupKV_setEntry_cases {α β : Type} [DecidableEq α] {k q : α} {v b : β}
    {l : List (α × β)} (h : lookupKV q (setEntry k v l) = some b) :
    b = v ∨ lookupKV q l = some b := by
  induction l with
  | nil => simp [setEntry, lookupKV] at h
  | cons hd tl ih =>
    obtain ⟨k1, v1⟩ := hd
    by_cases hk : k1 = k
    · by_cases hq : k1 = q
      · simp only [setEntry, if_pos hk, lookupKV, if_pos hq, Option.some.injEq] at h
        exact Or.inl h.symm
      · simp only [setEntry, if_pos hk, lookupKV, if_neg hq] at h
        exact Or.inr (by simp only [lookupKV, if_neg hq]; exact h)
    · by_cases hq : k1 = q
      · simp only [setEntry, if_neg hk, lookupKV, if_pos hq] at h
        exact Or.inr (by simp only [lookupKV, if_pos hq]; exact h)
      · simp only [setEntry, if_neg hk, lookupKV, if_neg hq] at h
        rcases ih h with h1 | h1
        · exact Or.inl h1
        · exact Or.inr (by simp only [lookupKV, if_neg hq]; exact h1)

theorem lookupKV_map_keyfn {α γ β : Type} [DecidableEq α] (f : α → β)
    {k : α} {l : List (α × γ)} (h : k ∈ l.map Prod.fst) :
    lookupKV k (l.map fun x => (x.1, f x.1)) = some (f k) := by
  induction l with
  | nil => simp at h
  | cons hd tl ih =>
    by_cases hk : hd.1 = k
    · simp [lookupKV, hk]
    · simp only [List.map_cons, lookupKV, if_neg hk]
      rw [List.map_cons] at h
      rcases List.mem_cons.mp h with h1 | h1
      · exact absurd h1.symm hk
      · exact ih h1

theorem lookupKV_map_keyfn_val {α γ β : Type} [DecidableEq α] (f : α → β)
    {k : α} {l : List (α × γ)} {b : β}
    (h : lookupKV k (l.map fun x => (x.1, f x.1)) = some b) : b = f k := by
  induction l with
  | nil => simp [lookupKV] at h
  | cons hd tl ih =>
    by_cases hk : hd.1 = k
    · simp only [List.map_cons, lookupKV, if_pos hk, Option.some.injEq] at h
      rw [← h, hk]
    · simp only [List.map_cons, lookupKV, if_neg hk] at h
      exact ih h

theorem lookupKV_of_nodup_mem {α β : Type} [DecidableEq α] {l : List (α × β)}
    {k : α} {v : β} (hn : (l.map Prod.fst).Nodup) (hm : (k, v) ∈ l) :
    lookupKV k l = some v := by
  induction l with
  | nil => simp at hm
  | cons hd tl ih =>
    rcases List.mem_cons.mp hm with h1 | h1
    · simp [lookupKV, ← h1]
    · have hk : hd.1 ≠ k := by
        intro hkeq
        have : k ∈ tl.map Prod.fst := List.mem_map.mpr ⟨(k, v), h1, rfl⟩
        rw [List.map_cons, List.nodup_cons] at hn
        exact hn.1 (hkeq ▸ this)
      simp only [lookupKV, if_neg hk]
      exact ih (by rw [List.map_cons, List.nodup_cons] at hn; exact hn.2) h1

/-! ## Ledger invariant lemmas -/

theorem balNonneg_mutexInit (seed : Seed) (rand : String → ℚ)
    (hr : ∀ q, 0 ≤ rand q) : balNonneg (mutexInit seed rand) := by
  intro p b hb
  have : b = rand p := lookupKV_map_keyfn_val rand (by simpa [mutexInit] using hb)
  rw [this]; exact hr p

theorem pay_fare_fail_id (s : MutexState) (p : String) (a : ℚ) (lk : Bool)
    (s2 : MutexState) (h : pay_fare s p a lk = .ok s2 false) : s2 = s := by
  unfold pay_fare at h
  cases hl : lookupKV p s.card_balances with
  | none => rw [hl] at h; simp_all
  | some bal =>
    rw [hl] at h
    by_cases hm : p ∈ s.card_locks <;> cases lk <;> by_cases hba : bal < a <;> simp_all

theorem buy_monthly_pass_fail_id (s : MutexState) (p : String) (lk : Bool)
    (s2 : MutexState) (h : buy_monthly_pass s p lk = .ok s2 false) : s2 = s := by
  unfold buy_monthly_pass at h
  cases hl : lookupKV p s.card_balances with
  | none => rw [hl] at h; simp_all
  | some bal =>
    rw [hl] at h
    by_cases hm : p ∈ s.card_locks <;> cases lk <;> by_cases hba : bal < 45 <;> simp_all

theorem stepLedger_preserves (s : MutexState) (op : LedgerOp)
    (h : balNonneg s) (ha : op.amountNonneg) : balNonneg (stepLedger s op) := by
  cases op with
  | pay p a lk =>
    intro q b hq
    simp only [stepLedger] at hq
    unfold pay_fare at hq
    cases hl : lookupKV p s.card_balances with
    | none => rw [hl] at hq; exact h q b hq
    | some bal =>
      rw [hl] at hq
      by_cases hm : p ∈ s.card_locks
      · cases lk with
        | false => simp only [if_pos hm, Bool.false_eq_true, if_false, PyResult.state] at hq
                   exact h q b hq
        | true =>
          by_cases hba : bal < a
          · simp only [if_pos hm, if_true, if_pos hba, PyResult.state] at hq
            exact h q b hq
          · simp only [if_pos hm, if_true, if_neg hba, PyResult.state] at hq
            rcases lookupKV_setEntry_cases hq with hb1 | hb1
            · rw [hb1]
              exact sub_nonneg.mpr (not_lt.mp hba)
            · exact h q b hb1
      · simp only [if_neg hm, PyResult.state] at hq
        exact h q b hq
  | recharge p a lk =>
    intro q b hq
    simp only [stepLedger] at hq
    unfold recharge_card at hq
    cases hl : lookupKV p s.card_balances with
    | none => rw [hl] at hq; exact h q b hq
    | some bal =>
      rw [hl] at hq
      by_cases hm : p ∈ s.card_locks
      · cases lk with
        | false => simp only [if_pos hm, Bool.false_eq_true, if_false, PyResult.state] at hq
                   exact h q b hq
        | true =>
          simp only [if_pos hm, if_true, PyResult.state] at hq
          rcases lookupKV_setEntry_cases hq with hb1 | hb1
          · rw [hb1]
            exact add_nonneg (h p bal hl) ha
          · exact h q b hb1
      · simp only [if_neg hm, PyResult.state] at hq
        exact h q b hq
  | refund p a =>
    intro q b hq
    simp only [stepLedger] at hq
    unfold refund at hq
    cases hl : lookupKV p s.card_balances with
    | none => rw [hl] at hq; exact h q b hq
    | some bal =>
      rw [hl] at hq
      by_cases hm : p ∈ s.card_locks
      · simp only [if_pos hm, PyResult.state] at hq; exact h q b hq
      · simp only [if_neg hm, PyResult.state] at hq; exact h q b hq
  | monthlyPass p lk =>
    intro q b hq
    simp only [stepLedger] at hq
    unfold buy_monthly_pass at hq
    cases hl : lookupKV p s.card_balances with
    | none => rw [hl] at hq; exact h q b hq
    | some bal =>
      rw [hl] at hq
      by_cases hm : p ∈ s.card_locks
      · cases lk with
        | false => simp only [if_pos hm, Bool.false_eq_true, if_false, PyResult.state] at hq
                   exact h q b hq
        | true =>
          by_cases hba : bal < 45
          · simp only [if_pos hm, if_true, if_pos hba, PyResult.state] at hq
            exact h q b hq
          · simp only [if_pos hm, if_true, if_neg hba, PyResult.state] at hq
            rcases lookupKV_setEntry_cases hq with hb1 | hb1
            · rw [hb1]
              exact sub_nonneg.mpr (not_lt.mp hba)
            · exact h q b hb1
      · simp only [if_neg hm, PyResult.state] at hq
        exact h q b hq

theorem runLedger_preserves (s : MutexState) (ops : List LedgerOp)
    (h : balNonneg s) (ha : ∀ op ∈ ops, op.amountNonneg) :
    balNonneg (runLedger s ops) := by
  induction ops generalizing s with
  | nil => exact h
  | cons op rest ih =>
    have h1 : runLedger s (op :: rest) = runLedger (stepLedger s op) rest := rfl
    rw [h1]
    exact ih (stepLedger s op)
      (stepLedger_preserves s op h (ha op (List.mem_cons_self op rest)))
      (fun o ho => ha o (List.mem_cons_of_mem op ho))

/-! ## Claim theorems -/

/-- C1: the spec says every per-event coordinator operation returns a
success/failure outcome and never raises across the coordination
boundary.  The code contradicts this: on an initialized manager with
known identifiers, `refund` raises AttributeError (misspelt
`lock.aquire`, mutex_sync.py line 112), the mutex `board_passenger`
raises NameError (`bus` undefined, line 159), and `wait_for_bus` raises
NameError (`time` unimported, condition_sync.py line 113). -/
theorem perEventOpsRaise :
    refund mEx "P1" 5 = .exn mEx (.attributeError "aquire") ∧
    mutex_board_passenger mEx "S1" true = .exn mEx (.nameError "bus") ∧
    wait_for_bus condEx "P1" "S1" none 30 = .exn condEx (.nameError "time") := by
  refine ⟨?_, ?_, ?_⟩ <;> decide

/-- C2: for a known passenger whose lock is acquired within the timeout,
`pay_fare` succeeds with new balance = old − amount exactly when the old
balance is at least the amount, and otherwise fails leaving the balance
unchanged. -/
theorem pay_fare_spec (s : MutexState) (p : String) (amount bal : ℚ)
    (hb : lookupKV p s.card_balances = some bal) (hl : p ∈ s.card_locks) :
    (amount ≤ bal →
        pay_fare s p amount true =
          .ok { s with card_balances := setEntry p (bal - amount) s.card_balances } true ∧
        lookupKV p (setEntry p (bal - amount) s.card_balances) = some (bal - amount)) ∧
    (bal < amount → pay_fare s p amount true = .ok s false) := by
  constructor
  · intro hle
    refine ⟨?_, lookupKV_setEntry_self p (bal - amount) s.card_balances hb⟩
    simp [pay_fare, hb, hl, not_lt.mpr hle]
  · intro hlt
    simp [pay_fare, hb, hl, hlt]

/-- Witness for C2 at the concrete initialized manager: paying 3 from
balance 50 succeeds and leaves 47. -/
theorem pay_fare_spec_witness :
    pay_fare mEx "P1" 3 true =
      .ok { mEx with card_balances := setEntry "P1" ((50 : ℚ) - 3) mEx.card_balances } true ∧
    lookupKV "P1" (setEntry "P1" ((50 : ℚ) - 3) mEx.card_balances) = some ((50 : ℚ) - 3) :=
  (pay_fare_spec mEx "P1" 3 50 (by decide) (by decide)).1 (by norm_num)

/-- C3: the spec says concurrent `board_passenger` calls admit exactly
`capacity` passengers and record them aboard.  The code contradicts
this: whenever a seat unit is available and acquired, the very next
statement reads `self.passenger_in_bus` (semaphore_sync.py line 87), an
attribute never created by the class, so the call raises AttributeError
with the seat unit consumed and no passenger ever recorded aboard. -/
theorem board_passenger_raises (s : SemState) (bus p : String) (t : ℚ) (n : Nat)
    (h : lookupKV bus s.bus_semaphores = some (n + 1)) :
    sem_board_passenger s bus p t =
      .exn { s with bus_semaphores := setEntry bus n s.bus_semaphores }
        (.attributeError "passenger_in_bus") := by
  simp [sem_board_passenger, h]

/-- Witness for C3: boarding on the freshly initialized manager, whose
bus B1 has 2 free seats, raises AttributeError. -/
theorem board_passenger_raises_witness :
    sem_board_passenger semEx "B1" "P1" 2 =
      .exn { semEx with bus_semaphores := setEntry "B1" 1 semEx.bus_semaphores }
        (.attributeError "passenger_in_bus") :=
  board_passenger_raises semEx "B1" "P1" 2 1 (by decide)

/-- C4 counterexample: the claim quantifies over any sequence of the
four card operations; a single `recharge_card` call with a negative
amount drives the balance of the initialized manager below zero. -/
theorem recharge_negative_counterexample :
    lookupKV "P1" (runLedger mEx [LedgerOp.recharge "P1" (-100) true]).card_balances
      = some (-50) ∧ ((-50 : ℚ) < 0) := by
  constructor
  · norm_num [runLedger, stepLedger, recharge_card, mEx, mutexInit, seedEx, randEx,
      lookupKV, setEntry, PyResult.state, List.foldl]
  · norm_num

/-- C4 amended: after any sequence of `pay_fare`, `recharge_card`,
`refund` and `buy_monthly_pass` calls whose amounts are non-negative,
every balance of the initialized manager stays non-negative; moreover a
failed debit (`pay_fare` or `buy_monthly_pass` returning False) leaves
the whole state unchanged. -/
theorem ledger_balances_nonneg (seed : Seed) (rand : String → ℚ)
    (ops : List LedgerOp)
    (hr : ∀ q, 10 ≤ rand q ∧ rand q ≤ 100)
    (ha : ∀ op ∈ ops, op.amountNonneg) :
    balNonneg (runLedger (mutexInit seed rand) ops) ∧
    (∀ s p a lk s2, pay_fare s p a lk = .ok s2 false → s2 = s) ∧
    (∀ s p lk s2, buy_monthly_pass s p lk = .ok s2 false → s2 = s) := by
  refine ⟨?_, pay_fare_fail_id, buy_monthly_pass_fail_id⟩
  refine runLedger_preserves _ ops ?_ ha
  exact balNonneg_mutexInit seed rand
    (fun q => le_trans (by norm_num) (hr q).1)

/-- Witness for C4 at the concrete seed: one fare payment and one
recharge, both with non-negative amounts. -/
theorem ledger_balances_nonneg_witness :
    balNonneg (runLedger (mutexInit seedEx randEx)
      [LedgerOp.pay "P1" 3 true, LedgerOp.recharge "P1" 10 true]) :=
  (ledger_balances_nonneg seedEx randEx
    [LedgerOp.pay "P1" 3 true, LedgerOp.recharge "P1" 10 true]
    (fun q => by constructor <;> norm_num [randEx])
    (by intro op hop
        rcases List.mem_cons.mp hop with h1 | h1
        · rw [h1]; norm_num [LedgerOp.amountNonneg]
        · rcases List.mem_cons.mp h1 with h2 | h2
          · rw [h2]; norm_num [LedgerOp.amountNonneg]
          · simp at h2)).1

/-- C5 counterexample: the seed supplies dock capacity 5 for stop S1 and
initial balance 70 for passenger P1, but the stop semaphore is created
with capacity 2 and the balance with the random-oracle value 50. -/
theorem initIgnoresSuppliedValues :
    lookupKV "S1" (semInit seedEx).stop_semaphores = some 2 ∧
    lookupKV "S1" (semInit seedEx).stop_semaphores ≠ some 5 ∧
    lookupKV "P1" (mutexInit seedEx randEx).card_balances = some 50 ∧
    lookupKV "P1" (mutexInit seedEx randEx).card_balances ≠ some 70 := by
  refine ⟨?_, ?_, ?_, ?_⟩ <;> decide

/-- C5 amended: every bus's seat semaphore is created with that bus's
supplied capacity, every stop's dock semaphore is created with the fixed
capacity 2 regardless of the supplied dock capacity, and every
passenger's balance is set to the `random.uniform(10, 100)` value, which
lies in [10, 100], not to the supplied initial balance. -/
theorem init_semantics (seed : Seed) (rand : String → ℚ)
    (hbus : (seed.buses.map Prod.fst).Nodup)
    (hr : ∀ q, 10 ≤ rand q ∧ rand q ≤ 100) :
    (∀ b c, (b, c) ∈ seed.buses →
        lookupKV b (semInit seed).bus_semaphores = some c) ∧
    (∀ st, st ∈ seed.stops.map Prod.fst →
        lookupKV st (semInit seed).stop_semaphores = some 2) ∧
    (∀ p, p ∈ seed.passengers.map Prod.fst →
        lookupKV p (mutexInit seed rand).card_balances = some (rand p) ∧
        10 ≤ rand p ∧ rand p ≤ 100) := by
  refine ⟨?_, ?_, ?_⟩
  · intro b c hm
    exact lookupKV_of_nodup_mem hbus hm
  · intro st hst
    simpa [semInit] using lookupKV_map_keyfn (fun _ => (2 : Nat)) hst
  · intro p hp
    exact ⟨by simpa [mutexInit] using lookupKV_map_keyfn rand hp, hr p⟩

/-- Witness for C5 at the concrete seed: B1 gets its supplied seat
capacity 2, S1 gets the fixed dock capacity 2, P1 gets the oracle
balance. -/
theorem init_semantics_witness :
    lookupKV "B1" (semInit seedEx).bus_semaphores = some 2 ∧
    lookupKV "S1" (semInit seedEx).stop_semaphores = some 2 ∧
    lookupKV "P1" (mutexInit seedEx randEx).card_balances = some (randEx "P1") :=
  ⟨(init_semantics seedEx randEx (by decide)
      (fun q => by constructor <;> norm_num [randEx])).1 "B1" 2 (by decide),
   (init_semantics seedEx randEx (by decide)
      (fun q => by constructor <;> norm_num [randEx])).2.1 "S1" (by decide),
   (init_semantics seedEx randEx (by decide)
      (fun q => by constructor <;> norm_num [randEx])).2.2 "P1" (by decide) |>.1⟩

/-- C6: the spec says `bus_arrive_at_stop` enqueues the bus and either
succeeds or returns a timeout outcome with all state restored.  The code
contradicts this: for every known stop it subscripts
`self.queue_locks[stop_id]` (semaphore_sync.py line 148), and since
`initialize` never adds an entry to `queue_locks`, the call raises
KeyError before any queueing happens. -/
theorem bus_arrive_raises_keyerror (s : SemState) (bus stop : String) (t : ℚ)
    (c : Nat) (hstop : lookupKV stop s.stop_semaphores = some c)
    (hq : stop ∉ s.queue_locks) :
    sem_bus_arrive_at_stop s bus stop t = .exn s .keyError := by
  simp [sem_bus_arrive_at_stop, hstop, hq]

/-- Witness for C6: arrival at the known stop S1 of the freshly
initialized manager raises KeyError. -/
theorem bus_arrive_raises_keyerror_witness :
    sem_bus_arrive_at_stop semEx "B1" "S1" 5 = .exn semEx .keyError :=
  bus_arrive_raises_keyerror semEx "B1" "S1" 5 2 (by decide) (by decide)

/-- C7 counterexample: `wait_for_bus` on an unknown stop returns exactly
the sentinel `-1` that line 128 returns on timeout, so the NOT_FOUND
outcome is not distinguishable from the TIMEOUT outcome. -/
theorem wfbNotFoundEqualsTimeout :
    wait_for_bus condEx "P1" "S9" none 30 = .ok condEx wfbTimeoutSentinel := by
  decide

/-- C7 amended: `wait_for_bus` with an unknown stop returns the same
sentinel `-1` that the timeout branch returns — the two failures are not
distinguishable by the result — and with a known stop the call raises
NameError because the `time` module is not imported. -/
theorem wait_for_bus_failure_modes (s : CondState) (p stop : String)
    (target : Option String) (t : ℚ) :
    (stop ∉ s.stop_conditions →
        wait_for_bus s p stop target t = .ok s wfbTimeoutSentinel) ∧
    (stop ∈ s.stop_conditions →
        wait_for_bus s p stop target t = .exn s (.nameError "time")) := by
  constructor
  · intro h; simp [wait_for_bus, h, wfbTimeoutSentinel]
  · intro h; simp [wait_for_bus, h]

/-- Witness for C7: the unknown stop S9 yields the timeout sentinel, the
known stop S1 raises NameError. -/
theorem wait_for_bus_failure_modes_witness :
    wait_for_bus condEx "P2" "S9" none 30 = .ok condEx wfbTimeoutSentinel ∧
    wait_for_bus condEx "P2" "S1" none 30 = .exn condEx (.nameError "time") :=
  ⟨(wait_for_bus_failure_modes condEx "P2" "S9" none 30).1 (by decide),
   (wait_for_bus_failure_modes condEx "P2" "S1" none 30).2 (by decide)⟩

/-- C8: the spec says `cleanup` returns success for each coordinator
even when handles were never used.  On freshly initialized managers the
condition manager's cleanup does return True, but the mutex manager has
no `cleanup` method at all (the def at mutex_sync.py line 234 sits at
module level, so the instance call raises AttributeError), and the
semaphore manager's cleanup returns False because clearing the
never-created `self.bus_at_stop` raises AttributeError inside the try
block (semaphore_sync.py line 278). -/
theorem cleanupOutcomes :
    callMutexCleanup mEx = .exn mEx (.attributeError "cleanup") ∧
    sem_cleanup semEx =
      .ok { bus_semaphores := [], stop_semaphores := []
          , stop_queues := [], queue_locks := [] } false ∧
    cond_cleanup condEx =
      .ok { stop_conditions := [], bus_conditions := [], bus_at_stop := []
          , boarding_complete := [], alighting_complete := []
          , transfers_in_progress := [] } true := by
  refine ⟨?_, rfl, rfl⟩
  decide

/-- C9: `complete_transfer` on a triple for which no `start_transfer`
created a record returns failure and leaves the whole state — in
particular the transfer-record map — unchanged. -/
theorem complete_transfer_no_record (s : CondState) (p fromBus toBus : String)
    (h : lookupKV (p, fromBus, toBus) s.transfers_in_progress = none) :
    complete_transfer s p fromBus toBus = .ok s false := by
  simp [complete_transfer, h]

/-- Witness for C9: on the freshly initialized manager no transfer
record exists, so completing one fails with the state unchanged. -/
theorem complete_transfer_no_record_witness :
    complete_transfer condEx "P1" "B1" "B2" = .ok condEx false :=
  complete_transfer_no_record condEx "P1" "B1" "B2" (by decide)

/-- C10: `notify_bus_departure` for a known stop returns success even
when the bus is not in the stop's present-bus set, leaving the state
unchanged. -/
theorem notify_departure_absent_bus (s : CondState) (bus stop : String)
    (hstop : stop ∈ s.stop_conditions)
    (habs : ∀ l, lookupKV stop s.bus_at_stop = some l → bus ∉ l) :
    notify_bus_departure s bus stop = .ok s true := by
  cases hl : lookupKV stop s.bus_at_stop with
  | none => simp [notify_bus_departure, hstop, hl]
  | some l => simp [notify_bus_departure, hstop, hl, habs l hl]

/-- Witness for C10: departing the never-arrived bus B1 from the known
stop S1 of the freshly initialized manager succeeds with no change. -/
theorem notify_departure_absent_bus_witness :
    notify_bus_departure condEx "B1" "S1" = .ok condEx true :=
  notify_departure_absent_bus condEx "B1" "S1" (by decide)
    (by intro l hl; simp [condEx, condInit, lookupKV] at hl)
